import Mathlib

set_option maxRecDepth 100000

/-!
Shallow embedding of the credit-spread permission dashboard (src/app.py).

Prices are modelled as rationals.  A pandas rolling statistic over a window
larger than the available history is NaN; that is modelled with `Option ℚ`
(`none` = NaN), and every ordered comparison involving `none` evaluates to
`false`, matching IEEE comparisons against NaN.  Arithmetic on `Option ℚ`
propagates `none`, matching NaN propagation.
-/

namespace SpyDashboard

/-- One daily OHLC bar, keeping only the fields the engine reads. -/
structure Bar where
  high : ℚ
  low : ℚ
  close : ℚ

/-- NaN-propagating addition (pandas scalar `+`). -/
def optAdd : Option ℚ → Option ℚ → Option ℚ
  | some x, some y => some (x + y)
  | _, _ => none

/-- NaN-propagating subtraction. -/
def optSub : Option ℚ → Option ℚ → Option ℚ
  | some x, some y => some (x - y)
  | _, _ => none

/-- NaN-propagating multiplication. -/
def optMul : Option ℚ → Option ℚ → Option ℚ
  | some x, some y => some (x * y)
  | _, _ => none

/-- Comparison `<=` with NaN semantics: any comparison against NaN is false. -/
def optLe (a b : Option ℚ) : Bool :=
  match a, b with
  | some x, some y => decide (x ≤ y)
  | _, _ => false

/-- Comparison `>=` with NaN semantics. -/
def optGe (a b : Option ℚ) : Bool :=
  match a, b with
  | some x, some y => decide (y ≤ x)
  | _, _ => false

/-- Comparison `>` with NaN semantics. -/
def optGt (a b : Option ℚ) : Bool :=
  match a, b with
  | some x, some y => decide (y < x)
  | _, _ => false

/-- Comparison `<` with NaN semantics. -/
def optLt (a b : Option ℚ) : Bool :=
  match a, b with
  | some x, some y => decide (x < y)
  | _, _ => false

/-- Last entry of `Series.rolling(w).mean()`: the arithmetic mean of the
trailing `w` values when at least `w` values exist, NaN (`none`) otherwise
(app.py lines 48-49, 83-84, 96). -/
def rollingMeanLast (w : Nat) (xs : List ℚ) : Option ℚ :=
  if xs.length < w ∨ w = 0 then none
  else some ((xs.drop (xs.length - w)).sum / (w : ℚ))

/-- Full `rolling(w).mean()` column: entry `i` is the rolling mean of the
prefix ending at index `i` (app.py line 49, consumed by the crossover count). -/
def rollingMean (w : Nat) (xs : List ℚ) : List (Option ℚ) :=
  (List.range xs.length).map fun i => rollingMeanLast w (xs.take (i + 1))

/-- Last entry of `Series.rolling(w).min()` (app.py line 98, support). -/
def rollingMinLast (w : Nat) (xs : List ℚ) : Option ℚ :=
  if xs.length < w ∨ w = 0 then none
  else (xs.drop (xs.length - w)).min?

/-- Last entry of `Series.rolling(w).max()` (app.py line 99, resistance). -/
def rollingMaxLast (w : Nat) (xs : List ℚ) : Option ℚ :=
  if xs.length < w ∨ w = 0 then none
  else (xs.drop (xs.length - w)).max?

/-- True range of the bars after the first, each paired with its predecessor
(app.py lines 88-94): `max(high - low, |high - prev_close|, |low - prev_close|)`. -/
def trRest : Bar → List Bar → List ℚ
  | _, [] => []
  | prev, b :: bs =>
      max (b.high - b.low) (max |b.high - prev.close| |b.low - prev.close|) :: trRest b bs

/-- Row-wise true range series (app.py lines 88-94).  For the first row
`prev_close = Close.shift()` is NaN, and pandas `max(axis=1)` skips NaN
entries, so the first row's true range is `high - low`, not NaN. -/
def trSeries : List Bar → List ℚ
  | [] => []
  | b :: bs => (b.high - b.low) :: trRest b bs

/-- Market regime (app.py lines 56-61): strict comparisons of the two SMAs,
with NaN comparisons evaluating false so undefined SMAs yield "Neutral". -/
def market_regime (sma20 sma50 : Option ℚ) : String :=
  if optGt sma20 sma50 then "Bullish"
  else if optLt sma20 sma50 then "Bearish"
  else "Neutral"

/-- Stock bias (app.py lines 111-116), same comparison chain as the market
regime but computed on the stock's SMAs. -/
def stock_bias (sma20 sma50 : Option ℚ) : String :=
  if optGt sma20 sma50 then "Bullish"
  else if optLt sma20 sma50 then "Bearish"
  else "Neutral"

/-- Distance chop sub-signal (app.py lines 64-65):
`abs(spy_close - spy_sma50) / spy_sma50 < CHOP_DIST`.  When the SMA is NaN the
comparison is false; when it is 0 the numpy quotient is inf or NaN and the
comparison is again false. -/
def chop_dist (spyClose : ℚ) (sma50 : Option ℚ) (band : ℚ) : Bool :=
  match sma50 with
  | none => false
  | some m => if m = 0 then false else decide (|spyClose - m| / m < band)

/-- Count of `(above != above.shift()).sum()` (app.py line 69): `shift`
prepends a NaN which compares unequal to any Bool, and each later row compares
with its predecessor. -/
def neqShiftCount (above : List Bool) : Nat :=
  ((above.map some).zip (none :: above.map some)).countP fun p => decide (p.1 ≠ p.2)

/-- Crossover tally (app.py line 69): `int((above != above.shift()).sum() - 1)`. -/
def crosses (above : List Bool) : Int :=
  (neqShiftCount above : Int) - 1

/-- Crossover chop sub-signal (app.py line 70): `crosses >= CHOP_CROSSES`. -/
def chop_cross (c : Int) (threshold : Int) : Bool :=
  decide (threshold ≤ c)

/-- Chop flag (app.py line 72): `chop_dist or chop_cross`. -/
def spy_chop (cd cc : Bool) : Bool := cd || cc

/-- Volatility gate (app.py line 76): `vix_value < VIX_THRESHOLD`. -/
def vol_ok (vix threshold : ℚ) : Bool := decide (vix < threshold)

/-- Market permission (app.py line 78): `vol_ok and not spy_chop`. -/
def market_permission (volOk chop : Bool) : Bool := volOk && !chop

/-- Near-support flag (app.py line 103): `close <= support + ATR_BUFFER * atr`,
with NaN propagation through the arithmetic and NaN comparisons false. -/
def near_support (close : ℚ) (support : Option ℚ) (buf : ℚ) (atr : Option ℚ) : Bool :=
  optLe (some close) (optAdd support (optMul (some buf) atr))

/-- Near-resistance flag (app.py line 104): `close >= resistance - ATR_BUFFER * atr`. -/
def near_resistance (close : ℚ) (resistance : Option ℚ) (buf : ℚ) (atr : Option ℚ) : Bool :=
  optGe (some close) (optSub resistance (optMul (some buf) atr))

/-- Displayed location label with its tie-break (app.py lines 156-160):
the near-support condition is evaluated first. -/
def location (ns nr : Bool) : String :=
  if ns then "Near Support"
  else if nr then "Near Resistance"
  else "Mid-Range"

/-- Final decision (app.py lines 121-130).  Note that it branches on the raw
near-support / near-resistance flags, not on the tie-broken location label. -/
def trade_action (mp ns nr : Bool) (bias : String) : String :=
  if !mp then "NO TRADE (Market Risk OFF)"
  else if ns && bias == "Bullish" then "PUT CREDIT SPREAD"
  else if nr && bias == "Bearish" then "CALL CREDIT SPREAD"
  else "SKIP THIS STOCK (Mid-range or bias mismatch)"

/-- Whether a verdict string is a permitted spread.  Models the check
`"SPREAD" in trade_action` (app.py line 166); of the four strings
`trade_action` can produce, exactly these two contain "SPREAD". -/
def permittedOf (s : String) : Bool :=
  s == "PUT CREDIT SPREAD" || s == "CALL CREDIT SPREAD"

/-- Sidebar configuration (app.py lines 15-25), one field per slider. -/
structure Config where
  VIX_THRESHOLD : ℚ
  RANGE_LOOKBACK : Nat
  ATR_LOOKBACK : Nat
  ATR_BUFFER : ℚ
  CHOP_DIST : ℚ
  CHOP_LOOKBACK : Nat
  CHOP_CROSSES : Int

/-- Latest close `iloc[-1]` (app.py line 51); the script stops earlier when the
frame is empty, so the default is never reached on the inputs of interest. -/
def lastClose (closes : List ℚ) : ℚ := closes.getLastD 0

/-- Latest SPY SMA50 (app.py lines 49, 53). -/
def spySMA50Last (spyCloses : List ℚ) : Option ℚ := rollingMeanLast 50 spyCloses

/-- Distance sub-signal of the pipeline (app.py lines 64-65). -/
def chop_distEval (cfg : Config) (spyCloses : List ℚ) : Bool :=
  chop_dist (lastClose spyCloses) (spySMA50Last spyCloses) cfg.CHOP_DIST

/-- Rows of `spy_df.tail(CHOP_LOOKBACK + 1).dropna(subset=["Close", "SMA50"])`
restricted to the two columns the crossover counter reads (app.py line 67). -/
def recentPairs (lookback : Nat) (closes : List ℚ) : List (ℚ × ℚ) :=
  ((closes.zip (rollingMean 50 closes)).drop (closes.length - (lookback + 1))).filterMap
    fun p =>
      match p.2 with
      | some m => some (p.1, m)
      | none => none

/-- Boolean column `recent["Close"] > recent["SMA50"]` (app.py line 68). -/
def aboveList (cfg : Config) (spyCloses : List ℚ) : List Bool :=
  (recentPairs cfg.CHOP_LOOKBACK spyCloses).map fun p => decide (p.2 < p.1)

/-- Pipeline crossover tally (app.py line 69). -/
def crossesEval (cfg : Config) (spyCloses : List ℚ) : Int :=
  crosses (aboveList cfg spyCloses)

/-- Pipeline crossover sub-signal (app.py line 70). -/
def chop_crossEval (cfg : Config) (spyCloses : List ℚ) : Bool :=
  chop_cross (crossesEval cfg spyCloses) cfg.CHOP_CROSSES

/-- Pipeline chop flag (app.py line 72). -/
def spy_chopEval (cfg : Config) (spyCloses : List ℚ) : Bool :=
  spy_chop (chop_distEval cfg spyCloses) (chop_crossEval cfg spyCloses)

/-- Pipeline market permission (app.py lines 74-78). -/
def market_permissionEval (cfg : Config) (spyCloses : List ℚ) (vix : ℚ) : Bool :=
  market_permission (vol_ok vix cfg.VIX_THRESHOLD) (spy_chopEval cfg spyCloses)

/-- Pipeline support level (app.py line 98). -/
def supportEval (cfg : Config) (bars : List Bar) : Option ℚ :=
  rollingMinLast cfg.RANGE_LOOKBACK (bars.map Bar.low)

/-- Pipeline resistance level (app.py line 99). -/
def resistanceEval (cfg : Config) (bars : List Bar) : Option ℚ :=
  rollingMaxLast cfg.RANGE_LOOKBACK (bars.map Bar.high)

/-- Pipeline ATR (app.py line 96, read at line 100). -/
def atrEval (cfg : Config) (bars : List Bar) : Option ℚ :=
  rollingMeanLast cfg.ATR_LOOKBACK (trSeries bars)

/-- Pipeline near-support flag (app.py line 103). -/
def near_supportEval (cfg : Config) (bars : List Bar) : Bool :=
  near_support (lastClose (bars.map Bar.close)) (supportEval cfg bars)
    cfg.ATR_BUFFER (atrEval cfg bars)

/-- Pipeline near-resistance flag (app.py line 104). -/
def near_resistanceEval (cfg : Config) (bars : List Bar) : Bool :=
  near_resistance (lastClose (bars.map Bar.close)) (resistanceEval cfg bars)
    cfg.ATR_BUFFER (atrEval cfg bars)

/-- Pipeline stock bias (app.py lines 83-84, 108-116). -/
def stock_biasEval (bars : List Bar) : String :=
  stock_bias (rollingMeanLast 20 (bars.map Bar.close))
    (rollingMeanLast 50 (bars.map Bar.close))

/-- End-to-end evaluation (app.py lines 48-130): SPY closes drive market
permission, the stock's bars drive bias and range location, and the final
verdict string is produced by `trade_action`. -/
def evaluate (cfg : Config) (spyCloses : List ℚ) (bars : List Bar) (vix : ℚ) : String :=
  trade_action (market_permissionEval cfg spyCloses vix)
    (near_supportEval cfg bars) (near_resistanceEval cfg bars) (stock_biasEval bars)

/-- True range as the spec words it, for a bar with a predecessor:
`max(high_t - low_t, |high_t - close_t-1|, |low_t - close_t-1|)`. -/
def trSpecOfPair (prev b : Bar) : ℚ :=
  max (b.high - b.low) (max |b.high - prev.close| |b.low - prev.close|)

/-- True-range series as the spec words it: the first bar's true range is
undefined and excluded, leaving one value per bar with a predecessor. -/
def trSeriesFromSpec : List Bar → List ℚ
  | [] => []
  | b :: bs => List.zipWith trSpecOfPair (b :: bs) bs

/-- ATR as the spec words it: the arithmetic mean of the trailing `atrWindow`
true-range values, the first bar's true range being excluded. -/
def atrFromSpec (w : Nat) (bars : List Bar) : Option ℚ :=
  rollingMeanLast w (trSeriesFromSpec bars)

/-- Number of sign changes of the above/below flag between consecutive
qualifying bars, as the spec words it. -/
def signChanges : List Bool → Nat
  | a :: b :: rest => (if a = b then 0 else 1) + signChanges (b :: rest)
  | _ => 0

/-- Default slider configuration (app.py lines 17-25): VIX threshold 20,
range lookback 20, ATR lookback 14, buffer 0.30, chop distance 0.6%,
chop lookback 10, chop crosses 3. -/
def cfgA : Config := ⟨20, 20, 14, 3/10, 6/1000, 10, 3⟩

/-- A single generic daily bar. -/
def barA : Bar := ⟨101, 99, 100⟩

/-- Default sliders but with a wide 0.50 ATR buffer. -/
def cfgB : Config := ⟨20, 20, 14, 1/2, 6/1000, 10, 3⟩

/-- A 50-day SPY close series that is trending (not choppy): flat then a jump. -/
def spyB : List ℚ := List.replicate 49 100 ++ [200]

/-- A 50-day stock series: 30 flat bars at 100 then 20 swinging bars around 90,
giving a Bearish bias, support 88, resistance 92, ATR 4 and a last close 90
that is simultaneously near support and near resistance under a 0.5 buffer. -/
def stockB : List Bar := List.replicate 30 ⟨101, 99, 100⟩ ++ List.replicate 20 ⟨92, 88, 90⟩

/-- Two bars, fewer than any window except an ATR lookback of 2. -/
def bars2 : List Bar := [⟨10, 5, 7⟩, ⟨8, 6, 7⟩]

/-- Default sliders with the ATR lookback forced down to 2. -/
def cfg2 : Config := ⟨20, 20, 2, 3/10, 6/1000, 10, 3⟩

/-- Three bars, one more than the ATR lookback of `cfg2`. -/
def bars3 : List Bar := [⟨10, 5, 7⟩, ⟨8, 6, 7⟩, ⟨9, 6, 8⟩]

/-- A flat 50-day SPY close series pinned to its own SMA50. -/
def spyW : List ℚ := List.replicate 50 100

/-- Helper: a rolling mean over a window longer than the series is NaN. -/
theorem rollingMeanLast_of_short {w : Nat} {xs : List ℚ} (h : xs.length < w) :
    rollingMeanLast w xs = none := by
  simp [rollingMeanLast, h]

/-- Helper: a rolling min over a window longer than the series is NaN. -/
theorem rollingMinLast_of_short {w : Nat} {xs : List ℚ} (h : xs.length < w) :
    rollingMinLast w xs = none := by
  simp [rollingMinLast, h]

/-- Helper: a rolling max over a window longer than the series is NaN. -/
theorem rollingMaxLast_of_short {w : Nat} {xs : List ℚ} (h : xs.length < w) :
    rollingMaxLast w xs = none := by
  simp [rollingMaxLast, h]

/-- Helper: the tail of the true-range series has one entry per bar. -/
theorem trRest_length (bs : List Bar) : ∀ prev, (trRest prev bs).length = bs.length := by
  induction bs with
  | nil => intro prev; rfl
  | cons b bs ih => intro prev; simp [trRest, ih]

/-- Helper: the true-range series has one entry per bar. -/
theorem trSeries_length (bars : List Bar) : (trSeries bars).length = bars.length := by
  cases bars with
  | nil => rfl
  | cons b bs => simp [trSeries, trRest_length]

/-- Helper: NaN propagates through the ATR buffer sum. -/
theorem optAdd_none_left (b : Option ℚ) : optAdd none b = none := by
  cases b <;> rfl

/-- Helper: NaN propagates through the buffer difference. -/
theorem optSub_none_left (b : Option ℚ) : optSub none b = none := by
  cases b <;> rfl

/-- Helper: NaN propagates through the buffer product. -/
theorem optMul_none_right (a : Option ℚ) : optMul a none = none := by
  cases a <;> rfl

/-- Helper: any `<=` comparison against NaN is false. -/
theorem optLe_none_right (a : Option ℚ) : optLe a none = false := by
  cases a <;> rfl

/-- Helper: any `>=` comparison against NaN is false. -/
theorem optGe_none_right (a : Option ℚ) : optGe a none = false := by
  cases a <;> rfl

/-- Helper: any `>` comparison against NaN is false. -/
theorem optGt_none_right (a : Option ℚ) : optGt a none = false := by
  cases a <;> rfl

/-- Helper: any `<` comparison against NaN is false. -/
theorem optLt_none_right (a : Option ℚ) : optLt a none = false := by
  cases a <;> rfl

/-- Helper: an undefined long SMA makes the bias chain fall through to Neutral. -/
theorem stock_bias_none_right (a : Option ℚ) : stock_bias a none = "Neutral" := by
  cases a <;> rfl

/-- Claim C1: for every configuration, SPY series, stock series and VIX reading,
if the volatility reading is at or above the threshold then the verdict is the
market-wide rejection, and it is not a permitted credit spread. -/
theorem C1_vol_gate_dominates (cfg : Config) (spyCloses : List ℚ) (bars : List Bar)
    (vix : ℚ) (h : cfg.VIX_THRESHOLD ≤ vix) :
    evaluate cfg spyCloses bars vix = "NO TRADE (Market Risk OFF)" ∧
    permittedOf (evaluate cfg spyCloses bars vix) = false := by
  have hv : vol_ok vix cfg.VIX_THRESHOLD = false := by
    simp [vol_ok, not_lt.mpr h]
  have hm : market_permissionEval cfg spyCloses vix = false := by
    simp [market_permissionEval, market_permission, hv]
  have he : evaluate cfg spyCloses bars vix = "NO TRADE (Market Risk OFF)" := by
    simp [evaluate, trade_action, hm]
  exact ⟨he, by rw [he]; rfl⟩

/-- Claim C1 witness: the default configuration with VIX 25 against its
threshold 20 yields the market-off verdict. -/
theorem C1_witness :
    cfgA.VIX_THRESHOLD ≤ 25 ∧
    (evaluate cfgA [100] [barA] 25 = "NO TRADE (Market Risk OFF)" ∧
     permittedOf (evaluate cfgA [100] [barA] 25) = false) :=
  ⟨by with_unfolding_all decide,
   C1_vol_gate_dominates cfgA [100] [barA] 25 (by with_unfolding_all decide)⟩

/-- Claim C4: in two-symbol mode, when the market-permission gate fails the
verdict is the market-wide rejection for every stock series, so no per-symbol
direction resolution influences it. -/
theorem C4_market_gate_fails_closed (cfg : Config) (spyCloses : List ℚ) (vix : ℚ)
    (h : market_permissionEval cfg spyCloses vix = false) (bars : List Bar) :
    evaluate cfg spyCloses bars vix = "NO TRADE (Market Risk OFF)" := by
  simp [evaluate, trade_action, h]

/-- Claim C4 witness: VIX 25 fails the market gate, and the verdict on a
concrete stock series is the market-wide rejection. -/
theorem C4_witness :
    market_permissionEval cfgA [100] 25 = false ∧
    evaluate cfgA [100] [barA] 25 = "NO TRADE (Market Risk OFF)" :=
  ⟨by with_unfolding_all decide,
   C4_market_gate_fails_closed cfgA [100] 25 (by with_unfolding_all decide) [barA]⟩

/-- Claim C6: regime classification on a pair of defined moving averages is
total and mutually exclusive: Bullish iff strictly greater, Bearish iff
strictly smaller, Neutral iff exactly equal; the same holds for the identical
per-stock bias chain. -/
theorem C6_regime_trichotomy (s l : ℚ) :
    (market_regime (some s) (some l) = "Bullish" ↔ l < s) ∧
    (market_regime (some s) (some l) = "Bearish" ↔ s < l) ∧
    (market_regime (some s) (some l) = "Neutral" ↔ s = l) ∧
    (stock_bias (some s) (some l) = "Bullish" ↔ l < s) ∧
    (stock_bias (some s) (some l) = "Bearish" ↔ s < l) ∧
    (stock_bias (some s) (some l) = "Neutral" ↔ s = l) := by
  have hbb : ("Bullish" : String) ≠ "Bearish" := by decide
  have hbn : ("Bullish" : String) ≠ "Neutral" := by decide
  have hrn : ("Bearish" : String) ≠ "Neutral" := by decide
  simp only [market_regime, stock_bias, optGt, optLt]
  rcases lt_trichotomy s l with h | h | h
  · rw [if_neg (by simp [not_lt.mpr h.le]), if_pos (by simp [h])]
    simp [hbb.symm, hrn, not_lt.mpr h.le, h, h.ne]
  · subst h
    rw [if_neg (by simp), if_neg (by simp)]
    simp [hbn.symm, hrn.symm]
  · rw [if_pos (by simp [h])]
    simp [hbb, hbn, h, not_lt.mpr h.le, h.ne']

/-- Claim C7: the displayed range-location label is total and mutually
exclusive given the tie-break: it is Near Support exactly when the
near-support condition holds (even when the near-resistance condition holds
too), Near Resistance exactly when only the near-resistance condition holds,
and Mid-Range exactly when neither holds. -/
theorem C7_location_tiebreak (close sup res buf atr : ℚ) :
    (location (near_support close (some sup) buf (some atr))
        (near_resistance close (some res) buf (some atr)) = "Near Support"
      ↔ close ≤ sup + buf * atr) ∧
    (location (near_support close (some sup) buf (some atr))
        (near_resistance close (some res) buf (some atr)) = "Near Resistance"
      ↔ ¬ close ≤ sup + buf * atr ∧ res - buf * atr ≤ close) ∧
    (location (near_support close (some sup) buf (some atr))
        (near_resistance close (some res) buf (some atr)) = "Mid-Range"
      ↔ ¬ close ≤ sup + buf * atr ∧ ¬ res - buf * atr ≤ close) := by
  have h1 : ("Near Support" : String) ≠ "Near Resistance" := by decide
  have h2 : ("Near Support" : String) ≠ "Mid-Range" := by decide
  have h3 : ("Near Resistance" : String) ≠ "Mid-Range" := by decide
  simp only [location, near_support, near_resistance, optLe, optGe, optAdd, optSub, optMul]
  by_cases hs : close ≤ sup + buf * atr <;> by_cases hr : res - buf * atr ≤ close <;>
    simp [hs, hr, h1, h2, h3, h1.symm, h2.symm, h3.symm]

/-- Claim C3 counterexample: a concrete evaluation that passes the market
gate, whose stock is simultaneously near support and near resistance with a
Bearish bias: the tie-broken location is Near Support, yet the verdict is a
permitted call-credit-spread rather than the rejection the claim requires. -/
theorem C3_counterexample :
    market_permissionEval cfgB spyB 15 = true ∧
    near_supportEval cfgB stockB = true ∧
    near_resistanceEval cfgB stockB = true ∧
    stock_biasEval stockB = "Bearish" ∧
    location (near_supportEval cfgB stockB) (near_resistanceEval cfgB stockB)
      = "Near Support" ∧
    evaluate cfgB spyB stockB 15 = "CALL CREDIT SPREAD" := by
  with_unfolding_all decide

/-- Claim C3 amended: when the market gate passes, the decision is driven by
the raw near-support / near-resistance flags rather than by the tie-broken
location label: a put-credit-spread exactly when near support with a Bullish
bias, a call-credit-spread exactly when near resistance with a Bearish bias
(even when the stock is also near support), and a skip in every other case. -/
theorem C3_amended (ns nr : Bool) (bias : String) :
    (trade_action true ns nr bias = "PUT CREDIT SPREAD"
      ↔ ns = true ∧ bias = "Bullish") ∧
    (trade_action true ns nr bias = "CALL CREDIT SPREAD"
      ↔ nr = true ∧ bias = "Bearish") ∧
    (trade_action true ns nr bias = "SKIP THIS STOCK (Mid-range or bias mismatch)"
      ↔ ¬(ns = true ∧ bias = "Bullish") ∧ ¬(nr = true ∧ bias = "Bearish")) := by
  have hpc : ("PUT CREDIT SPREAD" : String) ≠ "CALL CREDIT SPREAD" := by decide
  have hps : ("PUT CREDIT SPREAD" : String)
      ≠ "SKIP THIS STOCK (Mid-range or bias mismatch)" := by decide
  have hcs : ("CALL CREDIT SPREAD" : String)
      ≠ "SKIP THIS STOCK (Mid-range or bias mismatch)" := by decide
  have hbb : bias = "Bullish" → bias ≠ "Bearish" := by
    rintro rfl h; exact absurd h (by decide)
  simp only [trade_action, Bool.not_true, Bool.false_eq_true, if_false]
  by_cases hb : bias = "Bullish"
  · cases ns <;> simp [hb, hbb hb, hpc, hps, hpc.symm, hcs]
  · by_cases hc : bias = "Bearish"
    · cases ns <;> cases nr <;> simp [hb, hc, hps.symm, hcs, hcs.symm, hpc.symm]
    · cases ns <;> cases nr <;> simp [hb, hc, hps.symm, hcs.symm]

/-- Claim C2 counterexample: a one-bar series is shorter than every required
rolling window, yet no Insufficient-Data failure occurs: every indicator is
NaN (none) and the evaluation still produces a normal default skip verdict. -/
theorem C2_counterexample :
    spySMA50Last [100] = none ∧
    rollingMeanLast 20 [(100 : ℚ)] = none ∧
    supportEval cfgA [barA] = none ∧
    atrEval cfgA [barA] = none ∧
    evaluate cfgA [100] [barA] 15 = "SKIP THIS STOCK (Mid-range or bias mismatch)" := by
  with_unfolding_all decide

/-- Claim C2 amended: for every bar series shorter than the required rolling
windows the computation does not raise: the rolling indicators are NaN (none),
every comparison involving them is false, the bias falls through to Neutral,
and the evaluation silently degrades into a default verdict (market-off or
skip), never a spread. -/
theorem C2_amended (cfg : Config) (spyCloses : List ℚ) (bars : List Bar) (vix : ℚ)
    (h20 : bars.length < 20) (hr : bars.length < cfg.RANGE_LOOKBACK)
    (ha : bars.length < cfg.ATR_LOOKBACK) (hs : spyCloses.length < 50) :
    spySMA50Last spyCloses = none ∧
    rollingMeanLast 20 (bars.map Bar.close) = none ∧
    supportEval cfg bars = none ∧
    resistanceEval cfg bars = none ∧
    atrEval cfg bars = none ∧
    stock_biasEval bars = "Neutral" ∧
    near_supportEval cfg bars = false ∧
    near_resistanceEval cfg bars = false ∧
    (evaluate cfg spyCloses bars vix = "NO TRADE (Market Risk OFF)" ∨
     evaluate cfg spyCloses bars vix = "SKIP THIS STOCK (Mid-range or bias mismatch)") := by
  have hlc : (bars.map Bar.close).length = bars.length := List.length_map _ _
  have hlh : (bars.map Bar.high).length = bars.length := List.length_map _ _
  have hll : (bars.map Bar.low).length = bars.length := List.length_map _ _
  have h1 : spySMA50Last spyCloses = none := rollingMeanLast_of_short hs
  have h2 : rollingMeanLast 20 (bars.map Bar.close) = none :=
    rollingMeanLast_of_short (hlc ▸ h20)
  have h3 : supportEval cfg bars = none :=
    rollingMinLast_of_short (hll ▸ hr)
  have h4 : resistanceEval cfg bars = none :=
    rollingMaxLast_of_short (hlh ▸ hr)
  have h5 : atrEval cfg bars = none :=
    rollingMeanLast_of_short ((trSeries_length bars) ▸ ha)
  have h6 : rollingMeanLast 50 (bars.map Bar.close) = none :=
    rollingMeanLast_of_short (hlc ▸ Nat.lt_trans h20 (by omega))
  have hbias : stock_biasEval bars = "Neutral" := by
    rw [stock_biasEval, h6, stock_bias_none_right]
  have hns : near_supportEval cfg bars = false := by
    rw [near_supportEval, h3, near_support, optAdd_none_left, optLe_none_right]
  have hnr : near_resistanceEval cfg bars = false := by
    rw [near_resistanceEval, h4, near_resistance, optSub_none_left, optGe_none_right]
  refine ⟨h1, h2, h3, h4, h5, hbias, hns, hnr, ?_⟩
  rw [evaluate, hns, hnr, hbias]
  cases market_permissionEval cfg spyCloses vix
  · exact Or.inl rfl
  · exact Or.inr rfl

/-- Claim C2 amended witness: concrete one-bar series discharging the length
hypotheses against the default configuration. -/
theorem C2_amended_witness :
    ([barA].length < 20 ∧ [barA].length < cfgA.RANGE_LOOKBACK ∧
     [barA].length < cfgA.ATR_LOOKBACK ∧ [(100 : ℚ)].length < 50) ∧
    (spySMA50Last [100] = none ∧
     rollingMeanLast 20 ([barA].map Bar.close) = none ∧
     supportEval cfgA [barA] = none ∧
     resistanceEval cfgA [barA] = none ∧
     atrEval cfgA [barA] = none ∧
     stock_biasEval [barA] = "Neutral" ∧
     near_supportEval cfgA [barA] = false ∧
     near_resistanceEval cfgA [barA] = false ∧
     (evaluate cfgA [100] [barA] 15 = "NO TRADE (Market Risk OFF)" ∨
      evaluate cfgA [100] [barA] 15 = "SKIP THIS STOCK (Mid-range or bias mismatch)")) :=
  ⟨⟨by decide, by decide, by decide, by decide⟩,
   C2_amended cfgA [100] [barA] 15 (by decide) (by decide) (by decide) (by decide)⟩

/-- Claim C10: when the stock series has fewer bars than the long moving-average
window the classifier does not fail: every strict comparison against an
undefined value is false, the bias chain falls through to Neutral, and the
evaluation still produces a normal verdict. -/
theorem C10_short_series_neutral (cfg : Config) (spyCloses : List ℚ) (bars : List Bar)
    (vix : ℚ) (h : bars.length < 50) :
    rollingMeanLast 50 (bars.map Bar.close) = none ∧
    (∀ x : Option ℚ, optGt x none = false ∧ optLt x none = false ∧
      optGt none x = false ∧ optLt none x = false) ∧
    (∀ x : Option ℚ, market_regime x none = "Neutral" ∧ market_regime none x = "Neutral") ∧
    stock_biasEval bars = "Neutral" ∧
    (evaluate cfg spyCloses bars vix = "NO TRADE (Market Risk OFF)" ∨
     evaluate cfg spyCloses bars vix = "SKIP THIS STOCK (Mid-range or bias mismatch)") := by
  have hlc : (bars.map Bar.close).length = bars.length := List.length_map _ _
  have h6 : rollingMeanLast 50 (bars.map Bar.close) = none :=
    rollingMeanLast_of_short (hlc ▸ h)
  have hcmp : ∀ x : Option ℚ, optGt x none = false ∧ optLt x none = false ∧
      optGt none x = false ∧ optLt none x = false := by
    intro x
    exact ⟨optGt_none_right x, optLt_none_right x, by cases x <;> rfl, by cases x <;> rfl⟩
  have hreg : ∀ x : Option ℚ, market_regime x none = "Neutral" ∧
      market_regime none x = "Neutral" := by
    intro x
    constructor <;> cases x <;> rfl
  have hbias : stock_biasEval bars = "Neutral" := by
    rw [stock_biasEval, h6, stock_bias_none_right]
  refine ⟨h6, hcmp, hreg, hbias, ?_⟩
  rw [evaluate, hbias]
  rcases hns : near_supportEval cfg bars with _ | _ <;>
    rcases hnr : near_resistanceEval cfg bars with _ | _ <;>
      cases market_permissionEval cfg spyCloses vix <;>
        first
          | exact Or.inl rfl
          | exact Or.inr rfl

/-- Claim C10 witness: a one-bar stock series against the default
configuration, with VIX below threshold, yields the skip verdict. -/
theorem C10_witness :
    [barA].length < 50 ∧
    (rollingMeanLast 50 ([barA].map Bar.close) = none ∧
     (∀ x : Option ℚ, optGt x none = false ∧ optLt x none = false ∧
       optGt none x = false ∧ optLt none x = false) ∧
     (∀ x : Option ℚ, market_regime x none = "Neutral" ∧ market_regime none x = "Neutral") ∧
     stock_biasEval [barA] = "Neutral" ∧
     (evaluate cfgA [100] [barA] 15 = "NO TRADE (Market Risk OFF)" ∨
      evaluate cfgA [100] [barA] 15 = "SKIP THIS STOCK (Mid-range or bias mismatch)")) :=
  ⟨by decide, C10_short_series_neutral cfgA [100] [barA] 15 (by decide)⟩

/-- Helper: the tail of the code's true-range series is exactly the spec's
predecessor-based true range, one value per bar with a predecessor. -/
theorem trRest_eq_zipWith (bs : List Bar) :
    ∀ prev, trRest prev bs = List.zipWith trSpecOfPair (prev :: bs) bs := by
  induction bs with
  | nil => intro prev; rfl
  | cons b bs ih =>
      intro prev
      simp only [trRest, List.zipWith_cons_cons, ih b]
      rfl

/-- Claim C5 counterexample: on a two-bar series with an ATR window of 2 the
code's first-row true range is `high - low = 5` (pandas row-wise max skips the
NaN previous close), and it is included in the ATR average, while the spec's
ATR, which excludes the first bar, is undefined there; the two disagree. -/
theorem C5_counterexample :
    trSeries bars2 = [5, 2] ∧
    atrEval cfg2 bars2 = some (7 / 2) ∧
    atrFromSpec cfg2.ATR_LOOKBACK bars2 = none ∧
    atrEval cfg2 bars2 ≠ atrFromSpec cfg2.ATR_LOOKBACK bars2 := by
  with_unfolding_all decide

/-- Claim C5 amended: the true range of each bar with a predecessor is
`max(high - low, |high - prev close|, |low - prev close|)` as claimed, but the
first bar's true range is `high - low` (not undefined) and participates in the
rolling mean; consequently the code's ATR agrees with the spec's
first-bar-excluded ATR exactly when the series is strictly longer than the ATR
window, so that the trailing window no longer reaches the first bar. -/
theorem C5_amended (b : Bar) (bs : List Bar) (cfg : Config) (bars : List Bar)
    (h : cfg.ATR_LOOKBACK + 1 ≤ bars.length) :
    trSeries (b :: bs) = (b.high - b.low) :: List.zipWith trSpecOfPair (b :: bs) bs ∧
    atrEval cfg bars = atrFromSpec cfg.ATR_LOOKBACK bars := by
  constructor
  · simp only [trSeries, trRest_eq_zipWith]
  · rcases bars with _ | ⟨b0, bs0⟩
    · simp at h
    · rcases Nat.eq_zero_or_pos cfg.ATR_LOOKBACK with hw | hw
      · simp [atrEval, atrFromSpec, rollingMeanLast, hw]
      · set w := cfg.ATR_LOOKBACK with hwdef
        have hlen : (b0 :: bs0).length = bs0.length + 1 := by simp
        have hbs : w ≤ bs0.length := by omega
        have htr : trSeries (b0 :: bs0) = (b0.high - b0.low) :: trRest b0 bs0 := rfl
        have htrl : (trRest b0 bs0).length = bs0.length := trRest_length bs0 b0
        have hspec : trSeriesFromSpec (b0 :: bs0) = trRest b0 bs0 := by
          simp only [trSeriesFromSpec, trRest_eq_zipWith]
        rw [atrEval, atrFromSpec, hspec, htr]
        have hL1 : ((b0.high - b0.low) :: trRest b0 bs0).length = bs0.length + 1 := by
          simp [htrl]
        rw [rollingMeanLast, rollingMeanLast, if_neg (by omega), if_neg (by omega)]
        have hdrop : ((b0.high - b0.low) :: trRest b0 bs0).drop
            (((b0.high - b0.low) :: trRest b0 bs0).length - w)
            = (trRest b0 bs0).drop ((trRest b0 bs0).length - w) := by
          rw [hL1, htrl]
          have : bs0.length + 1 - w = (bs0.length - w) + 1 := by omega
          rw [this, List.drop_succ_cons]
        rw [hdrop]

/-- Claim C5 amended witness: a three-bar series with ATR window 2, where the
code ATR and the spec ATR coincide. -/
theorem C5_amended_witness :
    cfg2.ATR_LOOKBACK + 1 ≤ bars3.length ∧
    (trSeries [barA] = (barA.high - barA.low)
        :: List.zipWith trSpecOfPair [barA] [] ∧
     atrEval cfg2 bars3 = atrFromSpec cfg2.ATR_LOOKBACK bars3) :=
  ⟨by decide, C5_amended barA [] cfg2 bars3 (by decide)⟩

/-- Claim C8: the chop flag is the disjunction of the distance sub-signal and
the crossover sub-signal, and whenever the relative distance of the last close
to the last SMA50 is below the distance band, chop is flagged regardless of
the crossover count. -/
theorem C8_chop_disjunction (cfg : Config) (spyCloses : List ℚ) :
    (spy_chopEval cfg spyCloses = true ↔
      chop_distEval cfg spyCloses = true ∨ chop_crossEval cfg spyCloses = true) ∧
    (∀ m : ℚ, spySMA50Last spyCloses = some m → m ≠ 0 →
      |lastClose spyCloses - m| / m < cfg.CHOP_DIST →
      spy_chopEval cfg spyCloses = true) := by
  constructor
  · simp [spy_chopEval, spy_chop, Bool.or_eq_true]
  · intro m hm hm0 hd
    have hcd : chop_distEval cfg spyCloses = true := by
      simp [chop_distEval, hm, chop_dist, hm0, hd]
    simp [spy_chopEval, spy_chop, hcd]

/-- Claim C8 witness: a flat SPY series sitting exactly on its SMA50 has
relative distance 0, below the default band, and chop is flagged. -/
theorem C8_witness :
    spySMA50Last spyW = some 100 ∧ (100 : ℚ) ≠ 0 ∧
    |lastClose spyW - 100| / 100 < cfgA.CHOP_DIST ∧
    spy_chopEval cfgA spyW = true :=
  ⟨by with_unfolding_all decide, by with_unfolding_all decide,
   by with_unfolding_all decide,
   (C8_chop_disjunction cfgA spyW).2 100 (by with_unfolding_all decide)
     (by with_unfolding_all decide) (by with_unfolding_all decide)⟩

/-- Helper: the pairwise-inequality count over the zip with the shifted column,
past the artificial first row, equals the spec's sign-change count. -/
theorem countP_zip_shift (l : List Bool) : ∀ prev : Bool,
    ((l.map some).zip (some prev :: l.map some)).countP (fun p => decide (p.1 ≠ p.2))
      = signChanges (prev :: l) := by
  induction l with
  | nil => intro prev; rfl
  | cons b r ih =>
      intro prev
      simp only [List.map_cons, List.zip_cons_cons, List.countP_cons]
      rw [ih b]
      have hif : (if (some b ≠ some prev : Prop) then 1 else 0)
          = (if prev = b then 0 else 1) := by
        by_cases h : prev = b
        · simp [h]
        · simp [h, Ne.symm h]
      simp only [signChanges, decide_eq_true_eq, hif]
      omega

/-- Helper: the raw `(above != above.shift()).sum()` count is one more than the
spec's sign-change count, the extra one coming from the artificial first row. -/
theorem neqShiftCount_cons (a : Bool) (rest : List Bool) :
    neqShiftCount (a :: rest) = 1 + signChanges (a :: rest) := by
  simp only [neqShiftCount, List.map_cons, List.zip_cons_cons, List.countP_cons]
  rw [countP_zip_shift rest a]
  simp [Nat.add_comm]

/-- Helper: a fully alternating flag list has one sign change per adjacent pair. -/
theorem signChanges_chain (l : List Bool) (h : List.Chain' (fun a b => a ≠ b) l) :
    signChanges l = l.length - 1 := by
  induction l with
  | nil => rfl
  | cons a r ih =>
      cases r with
      | nil => rfl
      | cons b r2 =>
          rw [List.chain'_cons] at h
          have h2 := ih h.2
          simp only [signChanges, if_neg h.1, List.length_cons] at h2 ⊢
          omega

/-- Claim C9: the reported crossover tally equals the number of sign changes of
the above/below flag between consecutive qualifying bars, the artificial first
comparison being excluded; in particular a fully alternating flag list of
length N+1 (a series alternating on every bar over a lookback of N) reports
exactly N crosses. -/
theorem C9_crosses_characterization (l : List Bool) (n : Nat) :
    (l ≠ [] → crosses l = (signChanges l : Int)) ∧
    (List.Chain' (fun a b => a ≠ b) l → l.length = n + 1 → crosses l = (n : Int)) := by
  constructor
  · intro hne
    obtain ⟨a, rest, rfl⟩ := List.exists_cons_of_ne_nil hne
    rw [crosses, neqShiftCount_cons]
    push_cast
    omega
  · intro hch hlen
    have hne : l ≠ [] := by
      rintro rfl
      simp at hlen
    obtain ⟨a, rest, rfl⟩ := List.exists_cons_of_ne_nil hne
    rw [crosses, neqShiftCount_cons, signChanges_chain _ hch]
    simp only [List.length_cons] at hlen ⊢
    push_cast
    omega

/-- Claim C9 witness: the alternating flag list of length 4 reports 3 crosses,
matching its sign-change count. -/
theorem C9_witness :
    ([true, false, true, false] ≠ ([] : List Bool)) ∧
    List.Chain' (fun a b => a ≠ b) [true, false, true, false] ∧
    [true, false, true, false].length = 3 + 1 ∧
    crosses [true, false, true, false] = (signChanges [true, false, true, false] : Int) ∧
    crosses [true, false, true, false] = (3 : Int) :=
  ⟨by decide, by simp [List.chain'_cons], by decide,
   (C9_crosses_characterization [true, false, true, false] 3).1 (by decide),
   (C9_crosses_characterization [true, false, true, false] 3).2
     (by simp [List.chain'_cons]) (by decide)⟩

end SpyDashboard
